import Mathlib

/-!
Verification of the registration / activation core of the
dailymotion-coding-test repository, as a shallow embedding in Lean 4.

Conventions of the embedding:
- machine time (datetime) is modelled as a natural number of seconds;
- the random draw of random.randint(0, 9999) is an explicit parameter;
- Python exceptions become Except / Option results;
- the Postgres-backed stores become pure functions over an explicit
  Store value whose SQL statements are translated row by row;
- regular-expression character classes are modelled over their ASCII
  ranges, which is exact for [A-Z], [a-z] and the special set, and
  restricts the Python semantics of backslash-d and str.isdigit to
  ASCII digits (no claim below depends on non-ASCII digits).
-/

namespace DMReg

/-! Domain value objects: src/domain/user/value_objects -/

/-- PasswordHash value object (password_hash.py): a wrapper around the
hash string, with a non-emptiness check in the constructor. -/
structure PasswordHash where
  value : String
deriving DecidableEq, Repr

/-- Constructor validation of PasswordHash.__post_init__: the hash must
not be empty. -/
def PasswordHash.mk? (value : String) : Option PasswordHash :=
  if value = "" then none else some ⟨value⟩

/-- PasswordHash.__str__: returns the hash value itself. -/
def PasswordHash.pyStr (ph : PasswordHash) : String :=
  ph.value

/-- PasswordHash.__repr__: returns the redacted representation. -/
def PasswordHash.pyRepr (_ph : PasswordHash) : String :=
  "PasswordHash(***)"

/-- Password value object (password.py). -/
structure Password where
  value : String
deriving DecidableEq, Repr

def passwordMinLength : Nat := 8

def passwordMaxLength : Nat := 128

/-- Special characters of the password policy regular expression. -/
def specialChars : List Char :=
  ['!', '@', '#', '$', '%', '^', '&', '*', '(', ')', '_', '+', '-', '=',
   '[', ']', '{', '}', ';', '\'', ':', '"', '\\', '|', ',', '.', '<', '>',
   '/', '?']

def msgTooShort : String := "Password must be at least 8 characters long"

def msgTooLong : String := "Password must be at most 128 characters long"

def msgNoUppercase : String :=
  "Password must contain at least one uppercase letter"

def msgNoLowercase : String :=
  "Password must contain at least one lowercase letter"

def msgNoDigit : String := "Password must contain at least one digit"

def msgNoSpecial : String :=
  "Password must contain at least one special character"

/-- Error list built by Password.__post_init__: each of the six policy
rules is evaluated, in source order, and appends its message when
violated. -/
def passwordErrors (s : String) : List String :=
  (if s.length < passwordMinLength then [msgTooShort] else []) ++
  (if passwordMaxLength < s.length then [msgTooLong] else []) ++
  (if ¬ s.data.any (fun c => 'A' ≤ c ∧ c ≤ 'Z') then [msgNoUppercase] else []) ++
  (if ¬ s.data.any (fun c => 'a' ≤ c ∧ c ≤ 'z') then [msgNoLowercase] else []) ++
  (if ¬ s.data.any (fun c => '0' ≤ c ∧ c ≤ '9') then [msgNoDigit] else []) ++
  (if ¬ s.data.any (fun c => c ∈ specialChars) then [msgNoSpecial] else [])

/-- Password construction (Password.__post_init__): raises an
ExceptionGroup carrying every violated rule when the error list is
non-empty, otherwise the value object holds the plaintext unchanged. -/
def Password.mk? (s : String) : Except (List String) Password :=
  if passwordErrors s = [] then .ok ⟨s⟩ else .error (passwordErrors s)

/-! User entity: src/domain/user/entities/user.py -/

inductive UserStatus where
  | pending
  | active
deriving DecidableEq, Repr

/-- String value of the UserStatus StrEnum members. -/
def UserStatus.value : UserStatus → String
  | .pending => "pending"
  | .active => "active"

/-- UserPublicId: prefixed public identifier; the UUIDv7 payload is
modelled as its 128-bit integer value. -/
structure UserPublicId where
  pfx : String
  uuidV7 : Nat
deriving DecidableEq, Repr

/-- Declared class constant UserPublicId.PREFIX. -/
def userPrefixConst : String := "usr"

/-- User entity (pydantic model, frozen). -/
structure User where
  id : Nat
  public_id : UserPublicId
  email : String
  password_hash : PasswordHash
  status : UserStatus
deriving DecidableEq, Repr

/-! Activation code entity: src/domain/user/entities/activation_code.py -/

inductive ActivationCodeStatus where
  | pending
  | used
deriving DecidableEq, Repr

/-- String value of the ActivationCodeStatus StrEnum members. -/
def ActivationCodeStatus.value : ActivationCodeStatus → String
  | .pending => "pending"
  | .used => "used"

/-- StrEnum lookup ActivationCodeStatus(s): fails on any other string. -/
def ActivationCodeStatus.fromStr : String → Option ActivationCodeStatus
  | "pending" => some .pending
  | "used" => some .used
  | _ => none

def ACTIVATION_CODE_LENGTH : Nat := 4

/-- ActivationCode entity. -/
structure ActivationCode where
  user_id : Nat
  code : String
  expires_at : Nat
  status : ActivationCodeStatus
deriving DecidableEq, Repr

/-- Pydantic field validation of ActivationCode: the code field carries
min_length 4 and max_length 4 and nothing else. -/
def ActivationCode.mk? (uid : Nat) (code : String) (expires : Nat)
    (status : ActivationCodeStatus) : Option ActivationCode :=
  if ACTIVATION_CODE_LENGTH ≤ code.length ∧ code.length ≤ ACTIVATION_CODE_LENGTH
  then some ⟨uid, code, expires, status⟩ else none

/-- Python str.isdigit: true iff the string is non-empty and made of
digits (ASCII-modelled). -/
def pyIsdigit (s : String) : Bool :=
  !s.data.isEmpty && s.data.all (fun c => '0' ≤ c ∧ c ≤ '9')

/-- Static method ActivationCode.validate_code_format: requires all
digits, then length exactly 4. It is not called by the model fields, by
create, or by the row mapper. -/
def ActivationCode.validate_code_format (code : String) : Option String :=
  if ¬ pyIsdigit code then none
  else if code.length ≠ ACTIVATION_CODE_LENGTH then none
  else some code

def decimalDigitChar (d : Nat) : Char :=
  Char.ofNat ('0'.toNat + d % 10)

/-- ActivationCode.generate_code, with the draw of
random.randint(0, 9999) passed in as r: the four zero-padded decimal
digits of r (the format %04d for a value of at most 9999). -/
def ActivationCode.generate_code (r : Nat) : String :=
  ⟨[decimalDigitChar (r / 1000), decimalDigitChar (r / 100),
    decimalDigitChar (r / 10), decimalDigitChar r]⟩

/-- ActivationCode.create: generated code, expiry now plus the TTL
(default one minute), status PENDING. -/
def ActivationCode.create (uid : Nat) (r : Nat) (now : Nat)
    (expires_in_minutes : Nat := 1) : ActivationCode :=
  ⟨uid, ActivationCode.generate_code r, now + expires_in_minutes * 60, .pending⟩

/-- ActivationCode.is_expired: true iff the current time has reached
the expiry timestamp. -/
def ActivationCode.is_expired (ac : ActivationCode) (now : Nat) : Bool :=
  ac.expires_at ≤ now

/-- ActivationCode.is_used: true iff the status is USED. -/
def ActivationCode.is_used (ac : ActivationCode) : Bool :=
  ac.status = .used

def usedMessage : String := "Activation code has already been used."

def expiredMessage : String :=
  "Activation code has expired. Please request a new activation code."

/-- ActivationCode.is_valid: raises with the used message when the code
is used, else with the expired message when it is expired, else returns
True. The used check comes first. -/
def ActivationCode.is_valid (ac : ActivationCode) (now : Nat) :
    Except String Bool :=
  if ac.is_used then .error usedMessage
  else if ac.is_expired now then .error expiredMessage
  else .ok true

/-! PublicId: src/domain/common/public_id.py. The UUID payload is the
128-bit integer value of the stdlib uuid.UUID collaborator; its string
form and string parsing are modelled after the stdlib routines. -/

/-- Lowercase hexadecimal digit character for a value below 16. -/
def hexChar (d : Nat) : Char :=
  if d < 10 then Char.ofNat ('0'.toNat + d)
  else Char.ofNat ('a'.toNat + (d - 10))

/-- Value of one hexadecimal digit character, accepting both cases, as
int(x, 16) does. -/
def hexVal (c : Char) : Option Nat :=
  if '0' ≤ c ∧ c ≤ '9' then some (c.toNat - '0'.toNat)
  else if 'a' ≤ c ∧ c ≤ 'f' then some (c.toNat - 'a'.toNat + 10)
  else if 'A' ≤ c ∧ c ≤ 'F' then some (c.toNat - 'A'.toNat + 10)
  else none

/-- Most-significant-first list of the k low hexadecimal digits of n. -/
def hexDigitsMSB : Nat → Nat → List Nat
  | 0, _ => []
  | k + 1, n => n / 16 ^ k % 16 :: hexDigitsMSB k n

/-- Accumulate a hexadecimal character list into a number; any non-hex
character fails, as int(x, 16) raises ValueError. -/
def hexFold (cs : List Char) : Option Nat :=
  cs.foldlM (fun a c => (hexVal c).map (fun v => a * 16 + v)) 0

/-- The 32 hex characters of the %032x rendering of a UUID value. -/
def uuidHexChars (n : Nat) : List Char :=
  (hexDigitsMSB 32 n).map hexChar

/-- Insert the canonical dashes of str(UUID) after positions 8, 12, 16
and 20 of the 32-character hex form. -/
def dashGroup (cs : List Char) : List Char :=
  cs.take 8 ++ ['-'] ++ (cs.drop 8).take 4 ++ ['-'] ++
  (cs.drop 12).take 4 ++ ['-'] ++ (cs.drop 16).take 4 ++ ['-'] ++ cs.drop 20

/-- str(UUID): lowercase hex in 8-4-4-4-12 grouping. -/
def uuidStr (n : Nat) : String :=
  ⟨dashGroup (uuidHexChars n)⟩

/-- Remove every occurrence of the pattern from the character list,
scanning left to right, as str.replace(pat, "") does; driven by a fuel
bounded by the list length. -/
def removeSeqFuel (pat : List Char) : Nat → List Char → List Char
  | _, [] => []
  | 0, cs => cs
  | fuel + 1, c :: cs =>
      if pat ≠ [] ∧ pat.isPrefixOf (c :: cs) then
        removeSeqFuel pat fuel ((c :: cs).drop pat.length)
      else c :: removeSeqFuel pat fuel cs

def removeSeq (pat : List Char) (cs : List Char) : List Char :=
  removeSeqFuel pat cs.length cs

def isBrace (c : Char) : Bool :=
  c = '\x7b' ∨ c = '\x7d'

/-- Python str.strip applied to the two curly brace characters: drop
them from both ends. -/
def stripBraces (cs : List Char) : List Char :=
  ((cs.dropWhile isBrace).reverse.dropWhile isBrace).reverse

/-- Parse of the stdlib uuid.UUID(hex) constructor: remove urn: and
uuid: occurrences, strip curly braces at the ends, remove dashes, then
require exactly 32 hex characters. (The underscore tolerance of the
Python int literal parser is not modelled; no claim depends on it.) -/
def pyUUIDparse (s : String) : Option Nat :=
  let cs := removeSeq "uuid:".data (removeSeq "urn:".data s.data)
  let cs := (stripBraces cs).filter (fun c => c ≠ '-')
  if cs.length = 32 then hexFold cs else none

/-- Python value.split(sep, 1): the part before the first separator and
the part after it, or failure when the separator does not occur (the
two-name unpacking in from_string then raises ValueError). -/
def splitOnce (sep : Char) : List Char → Option (List Char × List Char)
  | [] => none
  | c :: rest =>
      if c = sep then some ([], rest)
      else (splitOnce sep rest).map (fun pr => (c :: pr.1, pr.2))

/-- PublicId.__init__ for the UserPublicId subclass: the prefix must
equal the declared class constant. -/
def UserPublicId.make (p : String) (n : Nat) : Option UserPublicId :=
  if p = userPrefixConst then some ⟨p, n⟩ else none

/-- PublicId.from_string: split on the first underscore, parse the UUID
part, then construct with the prefix check; every failure inside the
try block collapses to ValueError, modelled as none. -/
def UserPublicId.from_string (value : String) : Option UserPublicId :=
  match splitOnce '_' value.data with
  | none => none
  | some (p, rest) =>
      match pyUUIDparse ⟨rest⟩ with
      | none => none
      | some n => UserPublicId.make ⟨p⟩ n

/-- PublicId.__str__: prefix, underscore, canonical UUID string. -/
def UserPublicId.pyStr (pid : UserPublicId) : String :=
  pid.pfx ++ "_" ++ uuidStr pid.uuidV7

/-- PublicId.generate for UserPublicId: a fresh uuid7 value, modelled
by its 128-bit payload. -/
def UserPublicId.generate (n : Nat) : UserPublicId :=
  ⟨userPrefixConst, n % 2 ^ 128⟩

/-! Domain errors: src/domain/user/errors.py. Each error carries its
message; the default messages are those of the source. -/

inductive DomainError where
  | userNotFound (message : String)
  | userAlreadyExists (message : String)
  | activationCodeNotFound (message : String)
  | activationCodeInvalid (message : String)
deriving DecidableEq, Repr

def userNotFoundDefaultMessage : String := "User not found."

def activationCodeInvalidDefaultMessage : String :=
  "Activation code is invalid. It may be wrong or expired."

/-! Store state: the two Postgres tables of the adapters in
src/infrastructure/database/postgres/repositories, plus the outbox of
the email collaborator. The serial primary key of the users table is
the next_id counter. -/

structure Store where
  users : List User
  next_id : Nat
  codes : List ActivationCode
  emails : List (String × String)
deriving DecidableEq, Repr

/-! PostgresUserRepository (user_repository.py). -/

/-- INSERT INTO users: fails on the email uniqueness constraint, else
appends a new PENDING row under the next serial id; the fresh public id
generated by UserPublicId.generate is passed in. -/
def UserRepository.create (s : Store) (email : String) (ph : PasswordHash)
    (pid : UserPublicId) : Except DomainError (User × Store) :=
  if s.users.any (fun u => u.email = email) then
    .error (.userAlreadyExists ("User with email " ++ email ++ " already exists."))
  else
    let u : User := ⟨s.next_id, pid, email, ph, .pending⟩
    .ok (u, { s with users := s.users ++ [u], next_id := s.next_id + 1 })

/-- SELECT by internal id. -/
def UserRepository.find_by_id (s : Store) (uid : Nat) :
    Except DomainError User :=
  match s.users.find? (fun u => u.id = uid) with
  | none => .error (.userNotFound userNotFoundDefaultMessage)
  | some u => .ok u

/-- SELECT by public id (the query compares the stored UUID payload). -/
def UserRepository.find_by_public_id (s : Store) (pid : UserPublicId) :
    Except DomainError User :=
  match s.users.find? (fun u => u.public_id = pid) with
  | none => .error (.userNotFound
      ("User with public_id " ++ pid.pyStr ++ " not found."))
  | some u => .ok u

/-- SELECT by email. -/
def UserRepository.find_by_email (s : Store) (email : String) :
    Except DomainError User :=
  match s.users.find? (fun u => u.email = email) with
  | none => .error (.userNotFound ("User with email " ++ email ++ " not found."))
  | some u => .ok u

/-- UPDATE users SET status WHERE id, RETURNING the updated row: the
status is overwritten unconditionally on the matching row, with no
transition guard; a miss raises UserNotFoundError. -/
def UserRepository.set_status (s : Store) (uid : Nat) (st : UserStatus) :
    Except DomainError (User × Store) :=
  match s.users.find? (fun u => u.id = uid) with
  | none => .error (.userNotFound userNotFoundDefaultMessage)
  | some u =>
      let users := s.users.map
        (fun x => if x.id = uid then { x with status := st } else x)
      .ok ({ u with status := st }, { s with users := users })

/-! PostgresActivationCodeRepository (activation_code_repository.py). -/

/-- INSERT ... ON CONFLICT (user_id, code) DO UPDATE: when a row with
the same (user_id, code) key exists it is overwritten with the incoming
expiry and status, otherwise the row is appended. -/
def ActivationCodeRepository.save (s : Store) (ac : ActivationCode) : Store :=
  if s.codes.any (fun r => r.user_id = ac.user_id ∧ r.code = ac.code) then
    let codes := s.codes.map
      (fun r => if r.user_id = ac.user_id ∧ r.code = ac.code then
          { r with expires_at := ac.expires_at, status := ac.status }
        else r)
    { s with codes := codes }
  else { s with codes := s.codes ++ [ac] }

/-- SELECT by (user_id, code). -/
def ActivationCodeRepository.find_by_user_id_and_code (s : Store)
    (uid : Nat) (code : String) : Except DomainError ActivationCode :=
  match s.codes.find? (fun r => r.user_id = uid ∧ r.code = code) with
  | none => .error (.activationCodeNotFound
      ("Activation code not found for user_id " ++ toString uid ++
       " and code " ++ code ++ "."))
  | some r => .ok r

/-- UPDATE activation_codes SET status = used WHERE user_id AND status
= pending: flips every still-pending row of the user to USED. -/
def ActivationCodeRepository.mark_as_used (s : Store) (uid : Nat) : Store :=
  let codes := s.codes.map
    (fun r => if r.user_id = uid ∧ r.status = .pending then
        { r with status := .used }
      else r)
  { s with codes := codes }

/-- Email collaborator send_activation_code: records the dispatch. -/
def sendActivationCode (s : Store) (email : String) (code : String) : Store :=
  { s with emails := s.emails ++ [(email, code)] }

/-! Use cases: src/application/registration/use_cases. Each returns the
Python result or raised error together with the store state after the
call, which errors leave at the point of the raise. -/

/-- ActivateUser.execute: find the user by public id, find the code by
(user id, code), check validity, set the status to ACTIVE, mark the
pending codes of the user used. -/
def ActivateUser.execute (s : Store) (pid : UserPublicId) (code : String)
    (now : Nat) : Except DomainError User × Store :=
  match UserRepository.find_by_public_id s pid with
  | .error e => (.error e, s)
  | .ok user =>
    match ActivationCodeRepository.find_by_user_id_and_code s user.id code with
    | .error e => (.error e, s)
    | .ok activation_code =>
      match activation_code.is_valid now with
      | .error msg => (.error (.activationCodeInvalid msg), s)
      | .ok valid =>
        if !valid then
          (.error (.activationCodeInvalid activationCodeInvalidDefaultMessage), s)
        else
          match UserRepository.set_status s user.id .active with
          | .error e => (.error e, s)
          | .ok (activated_user, s1) =>
            (.ok activated_user,
             ActivationCodeRepository.mark_as_used s1 user.id)

/-- IssueActivationCode.execute: find the user by internal id, create
and save a fresh one-minute code from the random draw r, send it by
email, return the unchanged user. -/
def IssueActivationCode.execute (s : Store) (uid : Nat) (r : Nat)
    (now : Nat) : Except DomainError User × Store :=
  match UserRepository.find_by_id s uid with
  | .error e => (.error e, s)
  | .ok user =>
    let activation_code := ActivationCode.create user.id r now 1
    let s1 := ActivationCodeRepository.save s activation_code
    (.ok user, sendActivationCode s1 user.email activation_code.code)

/-- Error type of RegisterUser: the ExceptionGroup of policy violations
or a domain error from the store. -/
inductive RegisterError where
  | policy (errors : List String)
  | domain (e : DomainError)
deriving DecidableEq, Repr

/-- RegisterUser.execute: validate the password, hash it with the
collaborator hash function, create the user (fresh public id passed
in), create and save a one-minute activation code from the draw r, and
send it by email. -/
def RegisterUser.execute (hash : String → String) (s : Store)
    (email password : String) (pid : UserPublicId) (r now : Nat) :
    Except RegisterError User × Store :=
  match Password.mk? password with
  | .error es => (.error (.policy es), s)
  | .ok password_vo =>
    let password_hash : PasswordHash := ⟨hash password_vo.value⟩
    match UserRepository.create s email password_hash pid with
    | .error e => (.error (.domain e), s)
    | .ok (user, s1) =>
      let activation_code := ActivationCode.create user.id r now 1
      let s2 := ActivationCodeRepository.save s1 activation_code
      (.ok user, sendActivationCode s2 email activation_code.code)

/-! Authentication check: src/http/dependencies/auth.py. -/

/-- Model of fastapi.HTTPException as raised by the dependency: status
code and detail (every raise also carries the same WWW-Authenticate
Basic header). -/
structure HTTPError where
  status_code : Nat
  detail : String
deriving DecidableEq, Repr

def missingCredsDetail : String := "Missing email or password"

def invalidCredsDetail : String := "Invalid email or password"

/-- get_authenticated_user_from_basic_auth: empty email or password is
rejected first; an unknown email, a plaintext failing the password
policy, and a hash-verification mismatch each raise 401; the hash
verifier is the collaborator function verify. -/
def get_authenticated_user_from_basic_auth (verify : String → String → Bool)
    (s : Store) (email password : String) : Except HTTPError User :=
  if email = "" ∨ password = "" then
    .error ⟨401, missingCredsDetail⟩
  else
    match UserRepository.find_by_email s email with
    | .error _ => .error ⟨401, invalidCredsDetail⟩
    | .ok user =>
      match Password.mk? password with
      | .error _ => .error ⟨401, invalidCredsDetail⟩
      | .ok password_vo =>
        if verify password_vo.value user.password_hash.value then .ok user
        else .error ⟨401, invalidCredsDetail⟩

/-- PostgresActivationCodeDataMapper.row_to_activation_code: rebuild
the entity from a stored row through the StrEnum lookup and the pydantic
field validation; validate_code_format is not involved. -/
def row_to_activation_code (uid : Nat) (code : String) (expires : Nat)
    (statusStr : String) : Option ActivationCode :=
  (ActivationCodeStatus.fromStr statusStr).bind
    (fun st => ActivationCode.mk? uid code expires st)

/-! Concrete fixtures used by witnesses and counterexamples. -/

def samplePid : UserPublicId := ⟨userPrefixConst, 7⟩

def sampleUser : User :=
  ⟨1, samplePid, "test@example.com", ⟨"$2b$12$hashedpassword"⟩, .pending⟩

/-- Store holding one pending user and one pending unexpired code. -/
def sampleStore : Store :=
  ⟨[sampleUser], 2, [⟨1, "1234", 1000, .pending⟩], []⟩

/-- Store holding one pending user and one already used code row. -/
def usedCodeStore : Store :=
  ⟨[sampleUser], 2, [⟨1, "1234", 50, .used⟩], []⟩

/-- Store holding one pending user and one expired pending code. -/
def expiredCodeStore : Store :=
  ⟨[sampleUser], 2, [⟨1, "1234", 60, .pending⟩], []⟩

/-- Hash verifier collaborator that rejects every pair. -/
def rejectVerify : String → String → Bool := fun _ _ => false

/-- Store state after one successful activation on sampleStore. -/
def activatedStore : Store :=
  (ActivateUser.execute sampleStore samplePid "1234" 0).2

/-! Theorems. -/

/-- Membership in a conditional singleton list. -/
theorem mem_if_singleton (m x : String) (c : Prop) [Decidable c] :
    m ∈ (if c then [x] else []) ↔ c ∧ m = x := by
  split <;> simp_all

/-- C4 counterexample: converting a PasswordHash to string via
PasswordHash.pyStr yields the full stored hash value at a concrete
input, so the redaction claim fails as stated. -/
theorem password_hash_str_reveals_hash :
    PasswordHash.pyStr ⟨"$2b$12$hashedpassword"⟩ = "$2b$12$hashedpassword" :=
  rfl

/-- C4 amended: the repr conversion of PasswordHash always redacts the
hash, but the str conversion returns the stored hash value in full. -/
theorem password_hash_repr_redacts_str_reveals (ph : PasswordHash) :
    PasswordHash.pyRepr ph = "PasswordHash(***)" ∧
    PasswordHash.pyStr ph = ph.value :=
  ⟨rfl, rfl⟩

/-- C5: is_valid evaluates the used state before the expiry state: a
USED code fails with the used message even when it is also expired, a
PENDING expired code fails with the expired message, and a PENDING
unexpired code returns true. -/
theorem is_valid_checks_used_before_expiry (ac : ActivationCode) (now : Nat) :
    (ac.status = .used → ac.is_valid now = .error usedMessage) ∧
    (ac.status = .pending → ac.expires_at ≤ now →
      ac.is_valid now = .error expiredMessage) ∧
    (ac.status = .pending → now < ac.expires_at → ac.is_valid now = .ok true) :=
  by
  refine ⟨fun h => ?_, fun h h2 => ?_, fun h h2 => ?_⟩ <;>
    simp [ActivationCode.is_valid, ActivationCode.is_used,
      ActivationCode.is_expired, h] <;> omega

/-- C5 witness: a used code whose expiry is also past reports the used
message; an expired pending code reports the expired message; a pending
unexpired code is accepted. -/
theorem is_valid_checks_used_before_expiry_witness :
    (⟨1, "1234", 50, .used⟩ : ActivationCode).is_valid 100 = .error usedMessage ∧
    (⟨1, "1234", 60, .pending⟩ : ActivationCode).is_valid 60 =
      .error expiredMessage ∧
    (⟨1, "1234", 1000, .pending⟩ : ActivationCode).is_valid 0 = .ok true :=
  ⟨(is_valid_checks_used_before_expiry ⟨1, "1234", 50, .used⟩ 100).1 rfl,
   (is_valid_checks_used_before_expiry ⟨1, "1234", 60, .pending⟩ 60).2.1 rfl
     (by decide),
   (is_valid_checks_used_before_expiry ⟨1, "1234", 1000, .pending⟩ 0).2.2 rfl
     (by decide)⟩

/-- C9: the set_status store operation overwrites the status of the
located user unconditionally, with no transition guard: whenever a user
row with the given id exists, the call succeeds and returns that row
with exactly the requested status; in particular PENDING on an ACTIVE
user yields a PENDING user. -/
theorem set_status_overwrites_unconditionally (s : Store) (uid : Nat)
    (u : User) (st : UserStatus)
    (h : s.users.find? (fun x => x.id = uid) = some u) :
    (∃ s2, UserRepository.set_status s uid st = .ok ({ u with status := st }, s2)) ∧
    ({ u with status := st } : User).status = st :=
  by
  refine ⟨⟨{ s with users :=
      (s.users.map (fun x => if x.id = uid then { x with status := st } else x)) },
    ?_⟩, rfl⟩
  simp [UserRepository.set_status, h]

/-- C9 witness: setting PENDING on an already ACTIVE stored user
succeeds and yields the PENDING snapshot of that user. -/
theorem set_status_overwrites_unconditionally_witness :
    (∃ s2, UserRepository.set_status
        ⟨[{ sampleUser with status := .active }], 2, [], []⟩ 1 .pending =
      .ok ({ { sampleUser with status := .active } with status := .pending }, s2)) ∧
    ({ { sampleUser with status := .active } with status := .pending } : User).status
      = .pending :=
  set_status_overwrites_unconditionally
    ⟨[{ sampleUser with status := .active }], 2, [], []⟩ 1
    { sampleUser with status := .active } .pending (by decide)

/-- C10: constructing an ActivationCode enforces only that the code
field has length exactly 4 — any 4-character string is accepted, digits
or not; the digits-only check lives solely in validate_code_format,
which neither the constructor nor the row mapper invokes, so a
non-digit 4-character row reconstructs successfully. -/
theorem activation_code_construction_length_only (uid : Nat) (code : String)
    (expires : Nat) (st : ActivationCodeStatus) :
    ((ActivationCode.mk? uid code expires st).isSome ↔ code.length = 4) ∧
    (code.length = 4 →
      ActivationCode.mk? uid code expires st = some ⟨uid, code, expires, st⟩) ∧
    ActivationCode.mk? 1 "ab!x" 0 .pending = some ⟨1, "ab!x", 0, .pending⟩ ∧
    ActivationCode.validate_code_format "ab!x" = none ∧
    row_to_activation_code 1 "ab!x" 0 "pending" = some ⟨1, "ab!x", 0, .pending⟩ :=
  by
  refine ⟨?_, fun h => ?_, by decide, by decide, by decide⟩
  · simp [ActivationCode.mk?, ACTIVATION_CODE_LENGTH]
    omega
  · simp [ActivationCode.mk?, ACTIVATION_CODE_LENGTH, h]

/-- C10 witness: a concrete non-digit 4-character code is accepted by
the constructor even though validate_code_format rejects it. -/
theorem activation_code_construction_length_only_witness :
    ActivationCode.mk? 9 "x#z0" 7 .used = some ⟨9, "x#z0", 7, .used⟩ :=
  (activation_code_construction_length_only 9 "x#z0" 7 .used).2.1 (by decide)

/-- C2 counterexample: the missing-credentials failure carries the
detail Missing email or password while the unknown-email failure
carries Invalid email or password, so the four authentication failure
paths do not all share one generic message. -/
theorem auth_failure_messages_differ :
    get_authenticated_user_from_basic_auth rejectVerify sampleStore "" "pw" =
      .error ⟨401, missingCredsDetail⟩ ∧
    get_authenticated_user_from_basic_auth rejectVerify sampleStore
      "nobody@example.com" "ValidPass123!" = .error ⟨401, invalidCredsDetail⟩ ∧
    missingCredsDetail ≠ invalidCredsDetail :=
  ⟨rfl, rfl, by decide⟩

/-- C2 amended: every authentication failure is the same 401 kind, and
the three failure paths reached with non-empty credentials (unknown
email, plaintext failing the password policy, hash-verification
mismatch) all carry the same generic detail Invalid email or password;
only the missing-credentials path carries the distinct detail Missing
email or password. -/
theorem auth_failures_share_kind_and_generic_message
    (verify : String → String → Bool) (s : Store) (email password : String)
    (e : HTTPError)
    (h : get_authenticated_user_from_basic_auth verify s email password =
      .error e) :
    e.status_code = 401 ∧
    (e.detail = missingCredsDetail ∨ e.detail = invalidCredsDetail) ∧
    (email ≠ "" → password ≠ "" → e.detail = invalidCredsDetail) :=
  by
  unfold get_authenticated_user_from_basic_auth at h
  by_cases hm : email = "" ∨ password = ""
  · simp [hm] at h
    subst h
    refine ⟨rfl, Or.inl rfl, fun h1 h2 => ?_⟩
    rcases hm with hm | hm
    · exact absurd hm h1
    · exact absurd hm h2
  · simp [hm] at h
    rcases hfind : UserRepository.find_by_email s email with e1 | user <;>
      rw [hfind] at h
    · simp at h
      subst h
      exact ⟨rfl, Or.inr rfl, fun _ _ => rfl⟩
    · rcases hpw : Password.mk? password with es | pw <;> rw [hpw] at h
      · simp at h
        subst h
        exact ⟨rfl, Or.inr rfl, fun _ _ => rfl⟩
      · by_cases hv : verify pw.value user.password_hash.value
        · simp [hv] at h
        · simp [hv] at h
          subst h
          exact ⟨rfl, Or.inr rfl, fun _ _ => rfl⟩

/-- C2 amended witness: a hash-verification mismatch on an existing
user fails with the 401 kind and the generic detail. -/
theorem auth_failures_share_kind_and_generic_message_witness :
    (⟨401, invalidCredsDetail⟩ : HTTPError).status_code = 401 ∧
    ((⟨401, invalidCredsDetail⟩ : HTTPError).detail = missingCredsDetail ∨
      (⟨401, invalidCredsDetail⟩ : HTTPError).detail = invalidCredsDetail) ∧
    ("test@example.com" ≠ "" → "ValidPass123!" ≠ "" →
      (⟨401, invalidCredsDetail⟩ : HTTPError).detail = invalidCredsDetail) :=
  auth_failures_share_kind_and_generic_message rejectVerify sampleStore
    "test@example.com" "ValidPass123!" ⟨401, invalidCredsDetail⟩ rfl

/-- C7: when the looked-up activation code fails the validity check,
ActivateUser fails with ActivationCodeInvalid carrying the reason
message, and the returned store is exactly the input store: no status
update and no mark-used call happened, so the user status and the code
status are unchanged. -/
theorem activate_invalid_code_no_side_effects (s : Store)
    (pid : UserPublicId) (code : String) (now : Nat) (user : User)
    (ac : ActivationCode) (msg : String)
    (h1 : UserRepository.find_by_public_id s pid = .ok user)
    (h2 : ActivationCodeRepository.find_by_user_id_and_code s user.id code =
      .ok ac)
    (h3 : ac.is_valid now = .error msg) :
    ActivateUser.execute s pid code now =
      (.error (.activationCodeInvalid msg), s) :=
  by
  simp [ActivateUser.execute, h1, h2, h3]

/-- C7 witness: activating with a correct but expired code fails with
the expired reason and leaves the store untouched, the user still
PENDING and the code row still PENDING. -/
theorem activate_invalid_code_no_side_effects_witness :
    ActivateUser.execute expiredCodeStore samplePid "1234" 60 =
      (.error (.activationCodeInvalid expiredMessage), expiredCodeStore) :=
  activate_invalid_code_no_side_effects expiredCodeStore samplePid "1234" 60
    sampleUser ⟨1, "1234", 60, .pending⟩ expiredMessage rfl rfl rfl

/-- C6: password validation evaluates all six policy rules without
short-circuiting: construction succeeds exactly when the error list is
empty, success carries the identical plaintext, and on failure the
ExceptionGroup contains the message of every violated rule — each of
the six rules contributes its entry if and only if it is violated. -/
theorem password_validate_evaluates_all_rules (s : String) :
    (∀ p, Password.mk? s = .ok p → p.value = s) ∧
    (Password.mk? s = .ok ⟨s⟩ ↔ passwordErrors s = []) ∧
    (passwordErrors s ≠ [] → Password.mk? s = .error (passwordErrors s)) ∧
    ((s.length < passwordMinLength) ↔ msgTooShort ∈ passwordErrors s) ∧
    ((passwordMaxLength < s.length) ↔ msgTooLong ∈ passwordErrors s) ∧
    ((¬ s.data.any (fun c => 'A' ≤ c ∧ c ≤ 'Z')) ↔
      msgNoUppercase ∈ passwordErrors s) ∧
    ((¬ s.data.any (fun c => 'a' ≤ c ∧ c ≤ 'z')) ↔
      msgNoLowercase ∈ passwordErrors s) ∧
    ((¬ s.data.any (fun c => '0' ≤ c ∧ c ≤ '9')) ↔
      msgNoDigit ∈ passwordErrors s) ∧
    ((¬ s.data.any (fun c => c ∈ specialChars)) ↔
      msgNoSpecial ∈ passwordErrors s) :=
  by
  refine ⟨fun p hp => ?_, ?_, fun hne => ?_, ?_, ?_, ?_, ?_, ?_, ?_⟩
  · unfold Password.mk? at hp
    split at hp
    · cases hp
      rfl
    · cases hp
  · constructor
    · intro hp
      unfold Password.mk? at hp
      split at hp
      · assumption
      · cases hp
    · intro he
      simp [Password.mk?, he]
  · simp [Password.mk?, hne]
  all_goals
    simp only [passwordErrors, List.mem_append, mem_if_singleton, msgTooShort,
      msgTooLong, msgNoUppercase, msgNoLowercase, msgNoDigit, msgNoSpecial]
    simp

/-- C6 witness: the plaintext weak violates four rules and every one of
them is reported in the violation list. -/
theorem password_validate_evaluates_all_rules_witness :
    msgTooShort ∈ passwordErrors "weak" ∧
    msgNoUppercase ∈ passwordErrors "weak" ∧
    msgNoDigit ∈ passwordErrors "weak" ∧
    msgNoSpecial ∈ passwordErrors "weak" ∧
    (∀ p, Password.mk? "ValidPass123!" = .ok p → p.value = "ValidPass123!") :=
  ⟨(password_validate_evaluates_all_rules "weak").2.2.2.1.mp (by decide),
   (password_validate_evaluates_all_rules "weak").2.2.2.2.2.1.mp (by decide),
   (password_validate_evaluates_all_rules "weak").2.2.2.2.2.2.2.1.mp (by decide),
   (password_validate_evaluates_all_rules "weak").2.2.2.2.2.2.2.2.mp (by decide),
   (password_validate_evaluates_all_rules "ValidPass123!").1⟩

/-- C1 counterexample: on a store with one pending user and one
pending unexpired code, the first ActivateUser call succeeds, but the
second call with the same still-unexpired code fails with
ActivationCodeInvalid carrying the used message — because the first
call marked the code USED — refuting the claim that the second call
succeeds without raising. -/
theorem activate_twice_counterexample :
    (ActivateUser.execute sampleStore samplePid "1234" 0).1 =
      .ok { sampleUser with status := .active } ∧
    (ActivateUser.execute (ActivateUser.execute sampleStore samplePid "1234" 0).2
        samplePid "1234" 0).1 =
      .error (.activationCodeInvalid usedMessage) :=
  ⟨rfl, rfl⟩

set_option maxHeartbeats 1000000 in
/-- C1 amended: after any successful ActivateUser call, re-invoking it
on the resulting store with the same code fails with
ActivationCodeInvalid carrying the used message, at any later (or
equal) clock: activation is not replayable end-to-end, because the
first call marks the code USED and the used check precedes everything
else in the validity evaluation; idempotence holds only for the
set_status store operation itself. -/
theorem activate_replay_rejects_used_code (s : Store) (pid : UserPublicId)
    (code : String) (now now2 : Nat) (u : User) (s1 : Store)
    (h : ActivateUser.execute s pid code now = (.ok u, s1)) :
    (ActivateUser.execute s1 pid code now2).1 =
      .error (.activationCodeInvalid usedMessage) := by
  unfold ActivateUser.execute at h
  split at h
  · simp at h
  next user hu =>
  split at h
  · simp at h
  next ac hac =>
  split at h
  · simp at h
  next b hv =>
  split at h
  · simp at h
  split at h
  · simp at h
  next au s1a hset =>
  simp only [Prod.mk.injEq, Except.ok.injEq] at h
  obtain ⟨hau, hs1⟩ := h
  have hpend : ac.status = .pending := by
    unfold ActivationCode.is_valid at hv
    split at hv
    · simp at hv
    next hused =>
    unfold ActivationCode.is_used at hused
    rcases hst : ac.status with _ | _
    · rfl
    · rw [hst] at hused
      simp at hused
  unfold UserRepository.find_by_public_id at hu
  split at hu
  · simp at hu
  next user0 hfind =>
  simp only [Except.ok.injEq] at hu
  subst hu
  unfold ActivationCodeRepository.find_by_user_id_and_code at hac
  split at hac
  · simp at hac
  next ac0 hfindc =>
  simp only [Except.ok.injEq] at hac
  subst hac
  have hmatch := List.find?_some hfindc
  simp only [decide_eq_true_eq] at hmatch
  obtain ⟨hacuid, haccode⟩ := hmatch
  unfold UserRepository.set_status at hset
  split at hset
  · simp at hset
  next u0 hfindu =>
  simp only [Except.ok.injEq, Prod.mk.injEq] at hset
  obtain ⟨-, hs1a⟩ := hset
  subst hs1
  subst hs1a
  have hfind2 : UserRepository.find_by_public_id
      (ActivationCodeRepository.mark_as_used
        { s with users :=
          (s.users.map (fun x => if x.id = user0.id then { x with status := .active } else x)) }
        user0.id) pid =
      .ok { user0 with status := .active } := by
    unfold UserRepository.find_by_public_id
    rw [show (ActivationCodeRepository.mark_as_used
        { s with users :=
          (s.users.map (fun x => if x.id = user0.id then { x with status := .active } else x)) }
        user0.id).users =
      s.users.map (fun x => if x.id = user0.id then { x with status := .active } else x) from rfl]
    rw [List.find?_map]
    have hp : ((fun x : User => decide (x.public_id = pid)) ∘
        (fun x => if x.id = user0.id then { x with status := .active } else x)) =
        (fun x : User => decide (x.public_id = pid)) := by
      funext x
      by_cases hx : x.id = user0.id <;> simp [hx]
    rw [hp, hfind]
    simp
  have hfindc2 : ActivationCodeRepository.find_by_user_id_and_code
      (ActivationCodeRepository.mark_as_used
        { s with users :=
          (s.users.map (fun x => if x.id = user0.id then { x with status := .active } else x)) }
        user0.id)
      ({ user0 with status := .active } : User).id code =
      .ok { ac0 with status := .used } := by
    unfold ActivationCodeRepository.find_by_user_id_and_code
    rw [show (ActivationCodeRepository.mark_as_used
        { s with users :=
          (s.users.map (fun x => if x.id = user0.id then { x with status := .active } else x)) }
        user0.id).codes =
      s.codes.map (fun r => if r.user_id = user0.id ∧ r.status = .pending then
        { r with status := .used } else r) from rfl]
    rw [List.find?_map]
    have hq : ((fun r : ActivationCode =>
        decide (r.user_id = ({ user0 with status := .active } : User).id ∧ r.code = code)) ∘
        (fun r => if r.user_id = user0.id ∧ r.status = .pending then
          { r with status := .used } else r)) =
        (fun r : ActivationCode => decide (r.user_id = user0.id ∧ r.code = code)) := by
      funext r
      by_cases hr : r.user_id = user0.id ∧ r.status = ActivationCodeStatus.pending <;>
        simp [hr]
    rw [hq, hfindc]
    simp [hacuid, hpend]
  have hval : ({ ac0 with status := .used } : ActivationCode).is_valid now2 =
      .error usedMessage := by
    unfold ActivationCode.is_valid ActivationCode.is_used
    simp
  simp [ActivateUser.execute, hfind2, hfindc2, hval]


/-- C1 amended witness: replaying the concrete successful activation of
sampleStore at a later clock fails with the used message. -/
theorem activate_replay_rejects_used_code_witness :
    (ActivateUser.execute activatedStore samplePid "1234" 5).1 =
      .error (.activationCodeInvalid usedMessage) :=
  activate_replay_rejects_used_code sampleStore samplePid "1234" 0 5
    { sampleUser with status := .active } activatedStore rfl

/-- C3 counterexample: a store holding a USED activation-code row for
(user 1, code 1234); IssueActivationCode for user 1 with the random
draw 1234 succeeds and leaves that same (user, code) row with status
PENDING again — the save upsert overwrote the USED row. -/
theorem used_code_row_reset_counterexample :
    usedCodeStore.codes = [⟨1, "1234", 50, .used⟩] ∧
    (IssueActivationCode.execute usedCodeStore 1 1234 100).1 = .ok sampleUser ∧
    (IssueActivationCode.execute usedCodeStore 1 1234 100).2.codes =
      [⟨1, "1234", 160, .pending⟩] :=
  ⟨rfl, rfl, rfl⟩

/-- C3 amended: a USED activation-code row is never moved back to
PENDING by ActivateUser, nor by IssueActivationCode or RegisterUser
when the freshly generated code of the target user does not collide
with that row; but when IssueActivationCode generates exactly the code
of an existing USED (user, code) row, the save upsert (which
RegisterUser invokes as well) overwrites that row back to PENDING with
the new expiry. -/
theorem used_code_rows_only_reset_by_save_upsert :
    (∀ (s : Store) (pid : UserPublicId) (code : String) (now i : Nat)
        (row : ActivationCode), s.codes[i]? = some row → row.status = .used →
      (ActivateUser.execute s pid code now).2.codes[i]? = some row) ∧
    (∀ (s : Store) (uid r now i : Nat) (row : ActivationCode),
      s.codes[i]? = some row → row.status = .used →
      ¬(row.user_id = uid ∧ row.code = ActivationCode.generate_code r) →
      (IssueActivationCode.execute s uid r now).2.codes[i]? = some row) ∧
    (∀ (s : Store) (uid : Nat) (u : User) (r now i : Nat)
        (row : ActivationCode), UserRepository.find_by_id s uid = .ok u →
      s.codes[i]? = some row → row.status = .used →
      row.user_id = uid → row.code = ActivationCode.generate_code r →
      (IssueActivationCode.execute s uid r now).2.codes[i]? =
        some { row with expires_at := now + 1 * 60, status := .pending }) ∧
    (∀ (hash : String → String) (s : Store) (email password : String)
        (pid : UserPublicId) (r now i : Nat) (row : ActivationCode),
      s.codes[i]? = some row → row.status = .used →
      ¬(row.user_id = s.next_id ∧ row.code = ActivationCode.generate_code r) →
      (RegisterUser.execute hash s email password pid r now).2.codes[i]? =
        some row) := by
  refine ⟨?_, ?_, ?_, ?_⟩
  · intro s pid code now i row hrow hused
    unfold ActivateUser.execute
    rcases h1 : UserRepository.find_by_public_id s pid with e | user <;>
      simp only [h1]
    · exact hrow
    rcases h2 : ActivationCodeRepository.find_by_user_id_and_code s user.id code
      with e | ac <;> simp only [h2]
    · exact hrow
    rcases h3 : ac.is_valid now with msg | b <;> simp only [h3]
    · exact hrow
    rcases b with _ | _
    · simp only [Bool.not_false, if_true]
      exact hrow
    simp only [Bool.not_true, Bool.false_eq_true, if_false]
    rcases h4 : UserRepository.set_status s user.id .active with e | pr <;>
      simp only [h4]
    · exact hrow
    obtain ⟨au, s1a⟩ := pr
    have hcodes : s1a.codes = s.codes := by
      unfold UserRepository.set_status at h4
      split at h4
      · simp at h4
      simp only [Except.ok.injEq, Prod.mk.injEq] at h4
      obtain ⟨-, hs1a⟩ := h4
      subst hs1a
      rfl
    simp only [ActivationCodeRepository.mark_as_used]
    simp only [hcodes]
    rw [List.getElem?_map, hrow]
    simp [hused]
  · intro s uid r now i row hrow hused hnc
    unfold IssueActivationCode.execute
    rcases h1 : UserRepository.find_by_id s uid with e | user <;>
      simp only [h1]
    · exact hrow
    simp only [sendActivationCode, ActivationCodeRepository.save,
      ActivationCode.create]
    split
    · rw [List.getElem?_map, hrow]
      have hnc2 : ¬(row.user_id = user.id ∧
          row.code = ActivationCode.generate_code r) := by
        have huid : user.id = uid := by
          unfold UserRepository.find_by_id at h1
          split at h1
          · simp at h1
          next u0 hfindu =>
          simp only [Except.ok.injEq] at h1
          subst h1
          have hq := List.find?_some hfindu
          simpa using hq
        rw [huid]
        exact hnc
      simp [hnc2]
    · rw [List.getElem?_append]
      have hi : i < s.codes.length := (List.getElem?_eq_some.mp hrow).1
      simp [hi, hrow]
  · intro s uid u r now i row hfound hrow hused huid hcode
    unfold IssueActivationCode.execute
    rw [hfound]
    simp only []
    have huser : u.id = uid := by
      unfold UserRepository.find_by_id at hfound
      split at hfound
      · simp at hfound
      next u0 hfindu =>
      simp only [Except.ok.injEq] at hfound
      subst hfound
      have hq := List.find?_some hfindu
      simpa using hq
    simp only [sendActivationCode, ActivationCodeRepository.save,
      ActivationCode.create]
    have hcollide : s.codes.any (fun rr => rr.user_id = u.id ∧
        rr.code = ActivationCode.generate_code r) = true := by
      rw [List.any_eq_true]
      refine ⟨row, ?_, ?_⟩
      · exact List.getElem?_mem hrow
      · simp [huid, huser, hcode]
    rw [if_pos]
    · rw [List.getElem?_map, hrow]
      simp [huid, huser, hcode]
    · simpa using hcollide
  · intro hash s email password pid r now i row hrow hused hnc
    unfold RegisterUser.execute
    rcases h0 : Password.mk? password with es | pw <;> simp only [h0]
    · exact hrow
    rcases h1 : UserRepository.create s email ⟨hash pw.value⟩ pid with e | pr <;>
      simp only [h1]
    · exact hrow
    obtain ⟨user, s1⟩ := pr
    have hcr : user.id = s.next_id ∧ s1.codes = s.codes := by
      unfold UserRepository.create at h1
      split at h1
      · simp at h1
      simp only [Except.ok.injEq, Prod.mk.injEq] at h1
      obtain ⟨huser, hs1⟩ := h1
      constructor
      · rw [← huser]
      · rw [← hs1]
    obtain ⟨hid, hcodes⟩ := hcr
    simp only [sendActivationCode, ActivationCodeRepository.save,
      ActivationCode.create]
    split
    · rw [List.getElem?_map]
      simp only [hcodes]
      rw [hrow]
      have hnc2 : ¬(row.user_id = user.id ∧
          row.code = ActivationCode.generate_code r) := by
        rw [hid]
        exact hnc
      simp [hnc2]
    · simp only [hcodes]
      rw [List.getElem?_append]
      have hi : i < s.codes.length := (List.getElem?_eq_some.mp hrow).1
      simp [hi, hrow]


/-- C3 amended witness: the used row of usedCodeStore keeps its status
through ActivateUser in general, and the colliding issue call resets
exactly that row to PENDING with the fresh expiry. -/
theorem used_code_rows_only_reset_by_save_upsert_witness :
    (IssueActivationCode.execute usedCodeStore 1 1234 100).2.codes[0]? =
      some ⟨1, "1234", 100 + 1 * 60, .pending⟩ :=
  used_code_rows_only_reset_by_save_upsert.2.2.1 usedCodeStore 1 sampleUser 1234
    100 0 ⟨1, "1234", 50, .used⟩ rfl rfl rfl rfl rfl


theorem hexVal_hexChar (d : Nat) (h : d < 16) : hexVal (hexChar d) = some d := by
  interval_cases d <;> decide

theorem hexDigitsMSB_lt (k n : Nat) : ∀ d ∈ hexDigitsMSB k n, d < 16 := by
  induction k generalizing n with
  | zero => intro d hd; simp [hexDigitsMSB] at hd
  | succ k ih =>
    intro d hd
    rw [hexDigitsMSB] at hd
    rcases List.mem_cons.mp hd with hd | hd
    · subst hd
      exact Nat.mod_lt _ (by omega)
    · exact ih n d hd

theorem hexDigitsMSB_length (k n : Nat) : (hexDigitsMSB k n).length = k := by
  induction k generalizing n with
  | zero => rfl
  | succ k ih => simp [hexDigitsMSB, ih]

theorem foldl_hexDigitsMSB (k : Nat) : ∀ a n : Nat,
    (hexDigitsMSB k n).foldl (fun x d => x * 16 + d) a = a * 16 ^ k + n % 16 ^ k := by
  induction k with
  | zero => intro a n; simp [hexDigitsMSB, Nat.mod_one]
  | succ k ih =>
    intro a n
    rw [hexDigitsMSB]
    rw [List.foldl_cons, ih]
    have h1 : (16 : Nat) ^ (k + 1) = 16 ^ k * 16 := by ring
    rw [h1, Nat.mod_mul]
    ring

theorem hexFold_map (ds : List Nat) : ∀ a : Nat, (∀ d ∈ ds, d < 16) →
    (ds.map hexChar).foldlM (fun x c => (hexVal c).map (fun v => x * 16 + v)) a =
      some (ds.foldl (fun x d => x * 16 + d) a) := by
  induction ds with
  | nil => intro a h; rfl
  | cons d ds ih =>
    intro a h
    rw [List.map_cons, List.foldlM_cons]
    rw [hexVal_hexChar d (h d (by simp))]
    rw [List.foldl_cons]
    exact ih (a * 16 + d) (fun x hx => h x (by simp [hx]))


theorem removeSeqFuel_id (p : Char) (ps : List Char) (fuel : Nat) :
    ∀ cs : List Char, p ∉ cs → removeSeqFuel (p :: ps) fuel cs = cs := by
  induction fuel with
  | zero => intro cs h; cases cs <;> rfl
  | succ fuel ih =>
    intro cs h
    cases cs with
    | nil => rfl
    | cons c cs =>
      have hpc : p ≠ c := fun hp => h (hp ▸ List.mem_cons_self c cs)
      have hnp : ((p :: ps).isPrefixOf (c :: cs)) = false := by
        rw [Bool.eq_false_iff]
        intro hpre
        rw [List.isPrefixOf_iff_prefix] at hpre
        exact hpc (List.cons_prefix_cons.mp hpre).1
      rw [removeSeqFuel]
      rw [if_neg]
      · rw [ih cs (fun hm => h (List.mem_cons_of_mem c hm))]
      · rw [hnp]
        simp
  
theorem removeSeq_id (p : Char) (ps cs : List Char) (h : p ∉ cs) :
    removeSeq (p :: ps) cs = cs :=
  removeSeqFuel_id p ps cs.length cs h

theorem dropWhile_id (p : Char → Bool) (cs : List Char)
    (h : ∀ c ∈ cs, p c = false) : cs.dropWhile p = cs := by
  cases cs with
  | nil => rfl
  | cons c cs =>
    rw [List.dropWhile_cons, if_neg]
    rw [h c (List.mem_cons_self c cs)]
    simp

theorem stripBraces_id (cs : List Char) (h : ∀ c ∈ cs, isBrace c = false) :
    stripBraces cs = cs := by
  unfold stripBraces
  rw [dropWhile_id _ cs h]
  rw [dropWhile_id _ cs.reverse (fun c hc => h c (List.mem_reverse.mp hc))]
  exact List.reverse_reverse cs

theorem mem_dashGroup (c : Char) (cs : List Char) (h : c ∈ dashGroup cs) :
    c ∈ cs ∨ c = '-' := by
  unfold dashGroup at h
  simp only [List.mem_append, List.mem_cons, List.mem_singleton] at h
  rcases h with ((((((((h | h) | h) | h) | h) | h) | h) | h) | h) <;>
    first
      | exact Or.inr (by simpa using h)
      | exact Or.inl (List.mem_of_mem_take h)
      | exact Or.inl (List.mem_of_mem_drop h)
      | exact Or.inl (List.mem_of_mem_drop (List.mem_of_mem_take h))

theorem filter_dashGroup (cs : List Char) (h : ∀ c ∈ cs, (c ≠ '-' : Bool)) :
    (dashGroup cs).filter (fun c => c ≠ '-') = cs := by
  unfold dashGroup
  have hch : ∀ ds : List Char, (∀ c ∈ ds, c ∈ cs) →
      ds.filter (fun c => c ≠ '-') = ds := by
    intro ds hds
    apply List.filter_eq_self.mpr
    intro c hc
    exact h c (hds c hc)
  have hdash : (['-'] : List Char).filter (fun c => c ≠ '-') = [] := rfl
  simp only [List.filter_append, hdash, List.nil_append, List.append_nil]
  rw [hch _ (fun c hc => List.mem_of_mem_take hc)]
  rw [hch _ (fun c hc => List.mem_of_mem_drop (List.mem_of_mem_take hc))]
  rw [hch _ (fun c hc => List.mem_of_mem_drop (List.mem_of_mem_take hc))]
  rw [hch _ (fun c hc => List.mem_of_mem_drop (List.mem_of_mem_take hc))]
  rw [hch _ (fun c hc => List.mem_of_mem_drop hc)]
  have hstep : ∀ m k : Nat, m + 4 = k →
      (cs.drop m).take 4 ++ cs.drop k = cs.drop m := by
    intro m k hk
    subst hk
    rw [show cs.drop (m + 4) = (cs.drop m).drop 4 from by rw [List.drop_drop]]
    exact List.take_append_drop 4 (cs.drop m)
  simp only [List.append_assoc]
  rw [hstep 16 20 (by norm_num), hstep 12 16 (by norm_num),
    hstep 8 12 (by norm_num)]
  exact List.take_append_drop 8 cs


theorem forall_uuidHexChars (n : Nat) (P : Char → Prop)
    (hP : ∀ d, d < 16 → P (hexChar d)) : ∀ c ∈ uuidHexChars n, P c := by
  intro c hc
  unfold uuidHexChars at hc
  rcases List.mem_map.mp hc with ⟨d, hd, hcd⟩
  subst hcd
  exact hP d (hexDigitsMSB_lt 32 n d hd)

theorem uuidHexChars_no_dash (n : Nat) :
    ∀ c ∈ uuidHexChars n, (c ≠ '-' : Bool) :=
  forall_uuidHexChars n _ (fun d hd => by interval_cases d <;> decide)

theorem dashGroup_uuid_no_u (n : Nat) : 'u' ∉ dashGroup (uuidHexChars n) := by
  intro hu
  rcases mem_dashGroup _ _ hu with hc | hc
  · have hne : ('u' : Char) ≠ 'u' :=
      forall_uuidHexChars n (fun c => c ≠ 'u')
        (fun d hd => by interval_cases d <;> decide) _ hc
    exact hne rfl
  · cases hc

theorem dashGroup_uuid_no_brace (n : Nat) :
    ∀ c ∈ dashGroup (uuidHexChars n), isBrace c = false := by
  intro c hc
  rcases mem_dashGroup _ _ hc with hc2 | hc2
  · exact forall_uuidHexChars n (fun c => isBrace c = false)
      (fun d hd => by interval_cases d <;> decide) _ hc2
  · subst hc2
    decide

theorem pyUUIDparse_uuidStr (n : Nat) (h : n < 2 ^ 128) :
    pyUUIDparse (uuidStr n) = some n := by
  simp only [pyUUIDparse, uuidStr]
  rw [removeSeq_id 'u' _ _ (dashGroup_uuid_no_u n)]
  rw [removeSeq_id 'u' _ _ (dashGroup_uuid_no_u n)]
  rw [stripBraces_id _ (dashGroup_uuid_no_brace n)]
  rw [filter_dashGroup _ (uuidHexChars_no_dash n)]
  have hlen : (uuidHexChars n).length = 32 := by
    unfold uuidHexChars
    rw [List.length_map, hexDigitsMSB_length]
  rw [if_pos hlen]
  unfold hexFold uuidHexChars
  rw [hexFold_map _ 0 (hexDigitsMSB_lt 32 n)]
  rw [foldl_hexDigitsMSB]
  have hmod : n % 16 ^ 32 = n := by
    apply Nat.mod_eq_of_lt
    calc n < 2 ^ 128 := h
      _ = 16 ^ 32 := by norm_num
  simp [hmod]
  exact lt_of_lt_of_eq h (by norm_num)

theorem splitOnce_usr (rest : List Char) :
    splitOnce '_' ('u' :: 's' :: 'r' :: '_' :: rest) =
      some (['u', 's', 'r'], rest) := by
  simp [splitOnce]

theorem from_string_pyStr (n : Nat) :
    UserPublicId.from_string (UserPublicId.pyStr (UserPublicId.generate n)) =
      some (UserPublicId.generate n) := by
  unfold UserPublicId.generate UserPublicId.pyStr
  have hmlt : n % 2 ^ 128 < 2 ^ 128 := Nat.mod_lt n (by positivity)
  unfold UserPublicId.from_string
  rw [show (({ pfx := userPrefixConst, uuidV7 := n % 2 ^ 128 } :
      UserPublicId).pfx ++ "_" ++ uuidStr
        ({ pfx := userPrefixConst, uuidV7 := n % 2 ^ 128 } :
          UserPublicId).uuidV7).data =
    'u' :: 's' :: 'r' :: '_' :: (uuidStr (n % 2 ^ 128)).data from by
      simp [String.data_append]
      rfl]
  simp only [splitOnce_usr]
  rw [show (⟨(uuidStr (n % 2 ^ 128)).data⟩ : String) = uuidStr (n % 2 ^ 128)
    from rfl]
  simp only [pyUUIDparse_uuidStr _ hmlt]
  rw [show (⟨['u', 's', 'r']⟩ : String) = userPrefixConst from rfl]
  unfold UserPublicId.make
  rw [if_pos rfl]


theorem splitOnce_not_mem (sep : Char) (cs : List Char) (h : sep ∉ cs) :
    splitOnce sep cs = none := by
  induction cs with
  | nil => rfl
  | cons c cs ih =>
    rw [splitOnce, if_neg]
    · rw [ih (fun hm => h (List.mem_cons_of_mem c hm))]
      rfl
    · intro hc
      subst hc
      exact h (List.mem_cons_self c cs)

theorem splitOnce_first (sep : Char) (p rest : List Char) (h : sep ∉ p) :
    splitOnce sep (p ++ sep :: rest) = some (p, rest) := by
  induction p with
  | nil =>
    rw [List.nil_append, splitOnce, if_pos rfl]
  | cons c p ih =>
    rw [List.cons_append, splitOnce, if_neg]
    · rw [ih (fun hm => h (List.mem_cons_of_mem c hm))]
      rfl
    · intro hc
      subst hc
      exact h (List.mem_cons_self c p)

/-- C8: parsing the string form of any generated UserPublicId yields an
equal value; and from_string fails universally on each malformed
category: any prefix other than usr (with any well-formed UUID part),
any string whose UUID part does not parse, and any string with no
underscore separator at all (which covers the empty string); concrete
instances of each category are included. -/
theorem public_id_round_trip_and_rejects :
    (∀ n : Nat, UserPublicId.from_string
        (UserPublicId.pyStr (UserPublicId.generate n)) =
      some (UserPublicId.generate n)) ∧
    (∀ (p : String) (n : Nat), '_' ∉ p.data → p ≠ userPrefixConst →
      n < 2 ^ 128 →
      UserPublicId.from_string (p ++ "_" ++ uuidStr n) = none) ∧
    (∀ (value : String) (pre rest : List Char),
      splitOnce '_' value.data = some (pre, rest) →
      pyUUIDparse ⟨rest⟩ = none → UserPublicId.from_string value = none) ∧
    (∀ value : String, '_' ∉ value.data →
      UserPublicId.from_string value = none) ∧
    UserPublicId.from_string "abc_00000000-0000-0000-0000-000000000005" = none ∧
    UserPublicId.from_string "usr_notauuid" = none ∧
    UserPublicId.from_string "usrnounderscore" = none ∧
    UserPublicId.from_string "" = none := by
  refine ⟨from_string_pyStr, ?_, ?_, ?_, by decide, by decide, by decide,
    by decide⟩
  · intro p n hund hp hn
    unfold UserPublicId.from_string
    rw [show (p ++ "_" ++ uuidStr n).data =
      p.data ++ '_' :: (uuidStr n).data from by
        simp [String.data_append]]
    simp only [splitOnce_first '_' p.data ((uuidStr n).data) hund]
    rw [show (⟨(uuidStr n).data⟩ : String) = uuidStr n from rfl]
    simp only [pyUUIDparse_uuidStr n hn]
    rw [show (⟨p.data⟩ : String) = p from rfl]
    unfold UserPublicId.make
    rw [if_neg hp]
  · intro value pre rest hsplit hparse
    unfold UserPublicId.from_string
    simp only [hsplit, hparse]
  · intro value h
    unfold UserPublicId.from_string
    rw [splitOnce_not_mem '_' value.data h]

/-- C8 witness: the universal rejection statements applied at concrete
inputs: a wrong prefix with a well-formed UUID part, and a string with
no separator. -/
theorem public_id_round_trip_and_rejects_witness :
    UserPublicId.from_string ("abc" ++ "_" ++ uuidStr 5) = none ∧
    UserPublicId.from_string "usrnounderscore" = none :=
  ⟨public_id_round_trip_and_rejects.2.1 "abc" 5 (by decide) (by decide)
      (by norm_num),
   public_id_round_trip_and_rejects.2.2.2.1 "usrnounderscore" (by decide)⟩

end DMReg
